import Mathlib

/-!
Verification development for the ironbank ledger application.

The embedding models the three core components of the repository:

* the Zustand ledger store (`src/store/shopStore.ts` — the CRUD operations,
  the dirty flag, `clearAllData`, `importShops` and `loadLedgerData`);
* the ledger codec (`generateLedgerData` / the decode half of
  `handleFileOpen` and `handleFileImport` in the `LedgerManager` component);
* the merge/import engine (`handleFileImport` classification and
  `confirmImport` commit in the `LedgerManager` component).

Entity record shapes are translated from the shared type-definitions
module (`src/types.ts`, the Shopside tracker type definitions).
Timestamps are modelled as epoch milliseconds (`Nat`); the platform
`Date` ⇄ ISO-8601 string conversion used by `JSON.stringify` and
`new Date(string)` is modelled as an invertible decimal rendering.
JS `number` fields are modelled by the rationals: the embedded core
stores and compares them but never computes with them.
-/

namespace Ironbank

/-- Epoch-millisecond timestamp, the value carried by a JS `Date`. -/
abbrev Date := Nat

/-- A JS `number` field of the source types (an IEEE-754 double).  The
embedded core stores and compares these fields but never computes with
them, so they are modelled by the rationals, which admit the fractional
values a double can carry. -/
abbrev JsNumber := Rat

/-- `AppliedEnchantment` of `src/types.ts`: an enchantment applied to an
item at a specific level (the id is the enchantment name). -/
structure AppliedEnchantment where
  enchantmentId : String
  level : JsNumber
  deriving DecidableEq

/-- `QuantityUnit` of `src/types.ts`: the fixed string-union
item / stack / ci / cs / sc / dc / i / d. -/
inductive QuantityUnit where
  | item | stack | ci | cs | sc | dc | i | d
  deriving DecidableEq

/-- `Quantity` of `src/types.ts`: an amount (JS number) with its unit. -/
structure Quantity where
  amount : JsNumber
  unit : QuantityUnit
  deriving DecidableEq

/-- `TradeItem` of `src/types.ts`: one side of a trade. -/
structure TradeItem where
  itemId : String
  quantity : Quantity
  enchantments : Option (List AppliedEnchantment)
  customName : Option String
  deriving DecidableEq

/-- `Trade` of `src/types.ts`: one exchange offer belonging to a shop,
including its optional free-text `notes`. -/
structure Trade where
  id : String
  input : TradeItem
  output : TradeItem
  notes : Option String
  lastUpdated : Date
  isActive : Bool
  deriving DecidableEq

/-- `Player` of `src/types.ts`: a person identity keyed by in-game name. -/
structure Player where
  ign : String
  uuid : Option String
  notes : Option String
  deriving DecidableEq

/-- `Group` of `src/types.ts`: a named collection of players with an
optional leader. -/
structure Group where
  id : String
  name : String
  members : List Player
  leader : Option Player
  notes : Option String
  deriving DecidableEq

/-- `CustomItem` of `src/types.ts`: a user-defined item reusing an
existing texture. -/
structure CustomItem where
  id : String
  name : String
  baseItemId : String
  description : Option String
  createdAt : Date
  deriving DecidableEq

/-- `Coordinates` of `src/types.ts`: world coordinates, JS numbers. -/
structure Coordinates where
  x : JsNumber
  y : JsNumber
  z : JsNumber
  deriving DecidableEq

/-- `OwnerType` of `src/types.ts`: the owner discriminator. -/
inductive OwnerType where
  | individual | group
  deriving DecidableEq

/-- `ShopOwner` of `src/types.ts`: the discriminator plus two
independently optional record fields (the type does not force exactly
one of `player`/`group` to be present, so neither does the model). -/
structure ShopOwner where
  type : OwnerType
  player : Option Player := none
  group : Option Group := none
  deriving DecidableEq

/-- `Shop` of `src/types.ts`: a tracked storefront. -/
structure Shop where
  id : String
  name : String
  description : Option String
  owner : ShopOwner
  location : Coordinates
  trades : List Trade
  tags : Option (List String)
  createdAt : Date
  updatedAt : Date
  isActive : Bool
  deriving DecidableEq

/-- The four entity collections of one ledger, as passed to
`loadLedgerData` (`src/store/shopStore.ts`). -/
structure LedgerCollections where
  shops : List Shop
  players : List Player
  groups : List Group
  customItems : List CustomItem
  deriving DecidableEq

/-- The state owned by the Zustand store in `src/store/shopStore.ts`
(the fields the ledger claims are about; pure view state such as
filter/sort/viewMode is omitted). -/
structure ShopStore where
  shops : List Shop
  players : List Player
  groups : List Group
  customItems : List CustomItem
  selectedShopId : Option String
  ledgerName : String
  ledgerPath : Option String
  hasUnsavedChanges : Bool
  deriving DecidableEq

/-- Argument of `addShop`: a shop without id and timestamps
(`Omit<Shop, 'id' | 'createdAt' | 'updatedAt'>`). -/
structure ShopInput where
  name : String
  description : Option String
  owner : ShopOwner
  location : Coordinates
  trades : List Trade
  tags : Option (List String)
  isActive : Bool
  deriving DecidableEq

/-- Argument of `addTrade`: a trade without id and timestamp. -/
structure TradeInput where
  input : TradeItem
  output : TradeItem
  notes : Option String
  isActive : Bool
  deriving DecidableEq

/-- Argument of `addGroup`: a group without id. -/
structure GroupInput where
  name : String
  members : List Player
  leader : Option Player
  notes : Option String
  deriving DecidableEq

/-- Argument of `addCustomItem`: a custom item without id and timestamp. -/
structure CustomItemInput where
  name : String
  baseItemId : String
  description : Option String
  deriving DecidableEq

/-- `Partial<Shop>` patch for `updateShop`: every field optional, an
absent field leaves the existing value (JS object spread). -/
structure ShopPatch where
  id : Option String := none
  name : Option String := none
  description : Option String := none
  owner : Option ShopOwner := none
  location : Option Coordinates := none
  trades : Option (List Trade) := none
  tags : Option (List String) := none
  createdAt : Option Date := none
  updatedAt : Option Date := none
  isActive : Option Bool := none
  deriving DecidableEq

/-- `Partial<Trade>` patch for `updateTrade`. -/
structure TradePatch where
  id : Option String := none
  input : Option TradeItem := none
  output : Option TradeItem := none
  notes : Option String := none
  isActive : Option Bool := none
  lastUpdated : Option Date := none
  deriving DecidableEq

/-- `Partial<Player>` patch for `updatePlayer`. -/
structure PlayerPatch where
  ign : Option String := none
  uuid : Option String := none
  notes : Option String := none
  deriving DecidableEq

/-- `Partial<Group>` patch for `updateGroup`. -/
structure GroupPatch where
  id : Option String := none
  name : Option String := none
  notes : Option String := none
  members : Option (List Player) := none
  leader : Option Player := none
  deriving DecidableEq

/-- `Partial<CustomItem>` patch for `updateCustomItem`. -/
structure CustomItemPatch where
  id : Option String := none
  name : Option String := none
  baseItemId : Option String := none
  description : Option String := none
  createdAt : Option Date := none
  deriving DecidableEq

/-- `{ ...shop, ...updates, updatedAt: new Date() }` of `updateShop`. -/
def Shop.applyPatch (shop : Shop) (p : ShopPatch) (now : Date) : Shop where
  id := p.id.getD shop.id
  name := p.name.getD shop.name
  description := p.description.or shop.description
  owner := p.owner.getD shop.owner
  location := p.location.getD shop.location
  trades := p.trades.getD shop.trades
  tags := p.tags.or shop.tags
  createdAt := p.createdAt.getD shop.createdAt
  updatedAt := now
  isActive := p.isActive.getD shop.isActive

/-- `{ ...trade, ...updates, lastUpdated: new Date() }` of `updateTrade`. -/
def Trade.applyPatch (trade : Trade) (p : TradePatch) (now : Date) : Trade where
  id := p.id.getD trade.id
  input := p.input.getD trade.input
  output := p.output.getD trade.output
  notes := p.notes.or trade.notes
  isActive := p.isActive.getD trade.isActive
  lastUpdated := now

/-- `{ ...player, ...updates }` of `updatePlayer`. -/
def Player.applyPatch (player : Player) (p : PlayerPatch) : Player where
  ign := p.ign.getD player.ign
  uuid := p.uuid.or player.uuid
  notes := p.notes.or player.notes

/-- `{ ...group, ...updates }` of `updateGroup`. -/
def Group.applyPatch (group : Group) (p : GroupPatch) : Group where
  id := p.id.getD group.id
  name := p.name.getD group.name
  notes := p.notes.or group.notes
  members := p.members.getD group.members
  leader := p.leader.or group.leader

/-- `{ ...item, ...updates }` of `updateCustomItem`. -/
def CustomItem.applyPatch (item : CustomItem) (p : CustomItemPatch) : CustomItem where
  id := p.id.getD item.id
  name := p.name.getD item.name
  baseItemId := p.baseItemId.getD item.baseItemId
  description := p.description.or item.description
  createdAt := p.createdAt.getD item.createdAt

/-!
Store operations (`src/store/shopStore.ts`).  The id produced by
`generateId` — `Math.random().toString(36).substring(2, 15)` — is a draw
from the platform random generator; the embedding passes the drawn
string as an explicit argument to the operations that consume it.
-/

/-- `addShop`: builds the shop from the input plus a freshly generated id
and `now` timestamps, appends it, marks dirty, and returns the id. -/
def addShop (genId : String) (now : Date) (data : ShopInput) (s : ShopStore) :
    ShopStore × String :=
  let shop : Shop :=
    { id := genId, name := data.name, description := data.description
      owner := data.owner, location := data.location, trades := data.trades
      tags := data.tags, createdAt := now, updatedAt := now
      isActive := data.isActive }
  ({ s with shops := s.shops ++ [shop], hasUnsavedChanges := true }, genId)

/-- `updateShop`: maps over the collection patching the matching id. -/
def updateShop (id : String) (p : ShopPatch) (now : Date) (s : ShopStore) :
    ShopStore :=
  { s with
    shops := s.shops.map fun shop =>
      if shop.id == id then shop.applyPatch p now else shop
    hasUnsavedChanges := true }

/-- `deleteShop`: filters out the matching id, clears the selection when
it referenced the removed shop, marks dirty. -/
def deleteShop (id : String) (s : ShopStore) : ShopStore :=
  { s with
    shops := s.shops.filter fun shop => shop.id != id
    selectedShopId := if s.selectedShopId == some id then none else s.selectedShopId
    hasUnsavedChanges := true }

/-- `getShop`: pure first-match lookup. -/
def getShop (id : String) (s : ShopStore) : Option Shop :=
  s.shops.find? fun shop => shop.id == id

/-- `addTrade`: appends a freshly-built trade to the matching shop. -/
def addTrade (genId : String) (now : Date) (shopId : String) (data : TradeInput)
    (s : ShopStore) : ShopStore :=
  let trade : Trade :=
    { id := genId, input := data.input, output := data.output
      notes := data.notes, isActive := data.isActive, lastUpdated := now }
  { s with
    shops := s.shops.map fun shop =>
      if shop.id == shopId then
        { shop with trades := shop.trades ++ [trade], updatedAt := now }
      else shop
    hasUnsavedChanges := true }

/-- `updateTrade`: patches the matching trade of the matching shop. -/
def updateTrade (shopId tradeId : String) (p : TradePatch) (now : Date)
    (s : ShopStore) : ShopStore :=
  { s with
    shops := s.shops.map fun shop =>
      if shop.id == shopId then
        { shop with
          trades := shop.trades.map fun trade =>
            if trade.id == tradeId then trade.applyPatch p now else trade
          updatedAt := now }
      else shop
    hasUnsavedChanges := true }

/-- `deleteTrade`: removes the matching trade of the matching shop. -/
def deleteTrade (shopId tradeId : String) (now : Date) (s : ShopStore) :
    ShopStore :=
  { s with
    shops := s.shops.map fun shop =>
      if shop.id == shopId then
        { shop with
          trades := shop.trades.filter fun trade => trade.id != tradeId
          updatedAt := now }
      else shop
    hasUnsavedChanges := true }

/-- `addPlayer`: exact (case-sensitive) duplicate check on `ign`; a
duplicate leaves the state untouched, otherwise the player is appended
and the store marked dirty. -/
def addPlayer (player : Player) (s : ShopStore) : ShopStore :=
  if s.players.any fun p => p.ign == player.ign then s
  else { s with players := s.players ++ [player], hasUnsavedChanges := true }

/-- `updatePlayer`: patches the player with the exactly matching ign. -/
def updatePlayer (ign : String) (p : PlayerPatch) (s : ShopStore) : ShopStore :=
  { s with
    players := s.players.map fun player =>
      if player.ign == ign then player.applyPatch p else player
    hasUnsavedChanges := true }

/-- `deletePlayer`: removes the player with the exactly matching ign. -/
def deletePlayer (ign : String) (s : ShopStore) : ShopStore :=
  { s with
    players := s.players.filter fun player => player.ign != ign
    hasUnsavedChanges := true }

/-- `addGroup`: appends a group built from the input plus a generated id,
marks dirty, returns the id. -/
def addGroup (genId : String) (data : GroupInput) (s : ShopStore) :
    ShopStore × String :=
  let group : Group :=
    { id := genId, name := data.name, members := data.members
      leader := data.leader, notes := data.notes }
  ({ s with groups := s.groups ++ [group], hasUnsavedChanges := true }, genId)

/-- `updateGroup`: patches the group with the matching id. -/
def updateGroup (id : String) (p : GroupPatch) (s : ShopStore) : ShopStore :=
  { s with
    groups := s.groups.map fun group =>
      if group.id == id then group.applyPatch p else group
    hasUnsavedChanges := true }

/-- `deleteGroup`: removes the group with the matching id. -/
def deleteGroup (id : String) (s : ShopStore) : ShopStore :=
  { s with
    groups := s.groups.filter fun group => group.id != id
    hasUnsavedChanges := true }

/-- `addCustomItem`: the stored id is the generated id prefixed with the
namespace marker `custom_`; appends, marks dirty, returns the id. -/
def addCustomItem (genId : String) (now : Date) (data : CustomItemInput)
    (s : ShopStore) : ShopStore × String :=
  let id := "custom_" ++ genId
  let item : CustomItem :=
    { id := id, name := data.name, baseItemId := data.baseItemId
      description := data.description, createdAt := now }
  ({ s with customItems := s.customItems ++ [item], hasUnsavedChanges := true }, id)

/-- `updateCustomItem`: patches the custom item with the matching id. -/
def updateCustomItem (id : String) (p : CustomItemPatch) (s : ShopStore) :
    ShopStore :=
  { s with
    customItems := s.customItems.map fun item =>
      if item.id == id then item.applyPatch p else item
    hasUnsavedChanges := true }

/-- `deleteCustomItem`: removes the custom item with the matching id. -/
def deleteCustomItem (id : String) (s : ShopStore) : ShopStore :=
  { s with
    customItems := s.customItems.filter fun item => item.id != id
    hasUnsavedChanges := true }

/-- `importShops`: bulk-appends shops; the source sets only `shops`
(note: it does not touch `hasUnsavedChanges`). -/
def importShops (newShops : List Shop) (s : ShopStore) : ShopStore :=
  { s with shops := s.shops ++ newShops }

/-- `clearAllData`: empties the four collections, clears the selection
and the dirty flag. -/
def clearAllData (s : ShopStore) : ShopStore :=
  { s with
    shops := [], players := [], groups := [], customItems := []
    selectedShopId := none
    hasUnsavedChanges := false }

/-- `setLedgerName`. -/
def setLedgerName (name : String) (s : ShopStore) : ShopStore :=
  { s with ledgerName := name }

/-- `setLedgerPath`. -/
def setLedgerPath (path : Option String) (s : ShopStore) : ShopStore :=
  { s with ledgerPath := path }

/-- `setHasUnsavedChanges`. -/
def setHasUnsavedChanges (hasChanges : Bool) (s : ShopStore) : ShopStore :=
  { s with hasUnsavedChanges := hasChanges }

/-- `loadLedgerData(data, name?, path?)`: replaces the four collections,
clears the selection and the dirty flag; the conditional spreads
`...(name !== undefined && ...)` and `...(path !== undefined && ...)`
update the ledger name/path only when the argument was supplied
(an absent argument is the outer `none`; a supplied `null` path is
`some none`). -/
def loadLedgerData (data : LedgerCollections) (name : Option String)
    (path : Option (Option String)) (s : ShopStore) : ShopStore :=
  { shops := data.shops
    players := data.players
    groups := data.groups
    customItems := data.customItems
    selectedShopId := none
    ledgerName := name.getD s.ledgerName
    ledgerPath := path.getD s.ledgerPath
    hasUnsavedChanges := false }

/-!
Ledger codec (`generateLedgerData` plus `JSON.stringify` on the encode
side; `JSON.parse` plus the validation/date-revival block of
`handleFileOpen` / `handleFileImport` on the decode side).
-/

/-- Little-endian base-10 digits, fuel-recursive so that the kernel can
evaluate it on literals. -/
def digitsAux : Nat → Nat → List Nat
  | _, 0 => []
  | 0, _ + 1 => []
  | fuel + 1, n + 1 => ((n + 1) % 10) :: digitsAux fuel ((n + 1) / 10)

/-- Little-endian base-10 digits of a natural number. -/
def natDigits (n : Nat) : List Nat := digitsAux n n

/-- Modelled from the spec: the platform `Date` → ISO-8601 string
conversion applied by `JSON.stringify` to entity timestamps.  The spec
requires only that entity dates survive the string round trip exactly,
so the conversion is represented as an invertible decimal rendering of
the epoch-millisecond value. -/
def dateToISOString (d : Date) : String :=
  String.mk ((natDigits d).map fun k => Char.ofNat (k + 48))

/-- Modelled from the spec: the platform `new Date(string)` revival of a
serialized entity timestamp, the exact inverse of `dateToISOString`. -/
def parseDate (s : String) : Date :=
  Nat.ofDigits 10 (s.data.map fun c => c.toNat - 48)

/-- A trade as it appears in the ledger file: `lastUpdated` is a string. -/
structure SerTrade where
  id : String
  input : TradeItem
  output : TradeItem
  notes : Option String
  lastUpdated : String
  isActive : Bool
  deriving DecidableEq

/-- A shop as it appears in the ledger file: timestamps are strings and
trades carry string timestamps. -/
structure SerShop where
  id : String
  name : String
  description : Option String
  owner : ShopOwner
  location : Coordinates
  trades : List SerTrade
  tags : Option (List String)
  createdAt : String
  updatedAt : String
  isActive : Bool
  deriving DecidableEq

/-- A custom item as it appears in the ledger file. -/
structure SerCustomItem where
  id : String
  name : String
  baseItemId : String
  description : Option String
  createdAt : String
  deriving DecidableEq

/-- The `data` object of a ledger file; every collection may be absent
(`players`, `groups`, `customItems` are optional in practice, and a
hand-made file may omit `shops` too — the decoder defaults each). -/
structure SerData where
  shops : Option (List SerShop) := none
  players : Option (List Player) := none
  groups : Option (List Group) := none
  customItems : Option (List SerCustomItem) := none
  deriving DecidableEq

/-- The envelope of a ledger file (`LedgerData`); on the decode side any
top-level field may be absent, which is what the validation checks. -/
structure SerLedger where
  version : Option String := none
  name : Option String := none
  createdAt : Option String := none
  updatedAt : Option String := none
  data : Option SerData := none
  deriving DecidableEq

/-- JS truthiness of an optional string: absent (`undefined`/`null`) and
the empty string are falsy. -/
def strTruthy : Option String → Bool
  | none => false
  | some s => !s.isEmpty

/-- `JSON.stringify` image of one trade. -/
def encodeTrade (t : Trade) : SerTrade where
  id := t.id
  input := t.input
  output := t.output
  notes := t.notes
  lastUpdated := dateToISOString t.lastUpdated
  isActive := t.isActive

/-- `JSON.stringify` image of one shop. -/
def encodeShop (s : Shop) : SerShop where
  id := s.id
  name := s.name
  description := s.description
  owner := s.owner
  location := s.location
  trades := s.trades.map encodeTrade
  tags := s.tags
  createdAt := dateToISOString s.createdAt
  updatedAt := dateToISOString s.updatedAt
  isActive := s.isActive

/-- `JSON.stringify` image of one custom item. -/
def encodeCustomItem (c : CustomItem) : SerCustomItem where
  id := c.id
  name := c.name
  baseItemId := c.baseItemId
  description := c.description
  createdAt := c.createdAt |> dateToISOString

/-- `generateLedgerData(name)` followed by `JSON.stringify`: version tag
`1.0`, both envelope timestamps stamped to `now`, the four collections
serialized under `data`. -/
def generateLedgerData (now : Date) (name : String) (c : LedgerCollections) :
    SerLedger where
  version := some "1.0"
  name := some name
  createdAt := some (dateToISOString now)
  updatedAt := some (dateToISOString now)
  data := some
    { shops := some (c.shops.map encodeShop)
      players := some c.players
      groups := some c.groups
      customItems := some (c.customItems.map encodeCustomItem) }

/-- Date revival of one trade (`new Date(trade.lastUpdated)`). -/
def decodeTrade (t : SerTrade) : Trade where
  id := t.id
  input := t.input
  output := t.output
  notes := t.notes
  lastUpdated := parseDate t.lastUpdated
  isActive := t.isActive

/-- Date revival of one shop. -/
def decodeShop (s : SerShop) : Shop where
  id := s.id
  name := s.name
  description := s.description
  owner := s.owner
  location := s.location
  trades := s.trades.map decodeTrade
  tags := s.tags
  createdAt := parseDate s.createdAt
  updatedAt := parseDate s.updatedAt
  isActive := s.isActive

/-- Date revival of one custom item. -/
def decodeCustomItem (c : SerCustomItem) : CustomItem where
  id := c.id
  name := c.name
  baseItemId := c.baseItemId
  description := c.description
  createdAt := parseDate c.createdAt

/-- Result of a successful decode: the revived collections plus the
ledger display name the open path would install
(`data.name || 'Imported Ledger'`). -/
structure DecodedLedger where
  name : String
  collections : LedgerCollections
  deriving DecidableEq

/-- The decode half shared by `handleFileOpen` and `handleFileImport`:
`none` input stands for text `JSON.parse` rejects; then
`if (!data.version || !data.data) throw new Error(..)` — the JS
truthiness test — then each collection under `data` defaults to the
empty list and entity dates are revived. -/
def decodeLedger (input : Option SerLedger) : Except String DecodedLedger :=
  match input with
  | none => .error "Unexpected token"
  | some raw =>
    if !(strTruthy raw.version) then .error "Invalid ledger file format"
    else
      match raw.data with
      | none => .error "Invalid ledger file format"
      | some d =>
        .ok
          { name := if strTruthy raw.name then raw.name.getD "" else "Imported Ledger"
            collections :=
              { shops := (d.shops.getD []).map decodeShop
                players := d.players.getD []
                groups := d.groups.getD []
                customItems := (d.customItems.getD []).map decodeCustomItem } }

/-!
Merge/import engine (`handleFileImport` and `confirmImport` in the
`LedgerManager` component).
-/

/-- The per-collision resolution enumeration. -/
inductive Resolution where
  | keep | replace | skip
  deriving DecidableEq

/-- The typed payload of a `MergeCollision` (the source stores a
`type` discriminator plus `existing`/`incoming` union-typed records). -/
inductive CollisionData where
  | shop (existing incoming : Shop)
  | player (existing incoming : Player)
  | group (existing incoming : Group)
  | customItem (existing incoming : CustomItem)
  deriving DecidableEq

/-- One detected collision and its current resolution. -/
structure MergeCollision where
  data : CollisionData
  resolution : Resolution
  deriving DecidableEq

/-- The merge preview built by `handleFileImport`. -/
structure MergePreview where
  newShops : List Shop
  newPlayers : List Player
  newGroups : List Group
  newCustomItems : List CustomItem
  collisions : List MergeCollision
  deriving DecidableEq

/-- Shop classification loop: an incoming shop whose id matches an
existing shop becomes a collision defaulted to `skip`, otherwise it is
queued as new. -/
def classifyShops (current : List Shop) (incoming : List Shop) :
    List Shop × List MergeCollision :=
  incoming.foldl
    (fun acc inc =>
      match current.find? fun s => s.id == inc.id with
      | some ex => (acc.1, acc.2 ++ [⟨.shop ex inc, .skip⟩])
      | none => (acc.1 ++ [inc], acc.2))
    ([], [])

/-- Modelled from the spec: the platform `String.prototype.toLowerCase`
used for case-insensitive player matching — lowercases each character. -/
def jsToLower (s : String) : String :=
  String.mk (s.data.map Char.toLower)

/-- Player classification loop: matching is case-insensitive on `ign`
(`p.ign.toLowerCase() === incoming.ign.toLowerCase()`). -/
def classifyPlayers (current : List Player) (incoming : List Player) :
    List Player × List MergeCollision :=
  incoming.foldl
    (fun acc inc =>
      match current.find? fun p => jsToLower p.ign == jsToLower inc.ign with
      | some ex => (acc.1, acc.2 ++ [⟨.player ex inc, .skip⟩])
      | none => (acc.1 ++ [inc], acc.2))
    ([], [])

/-- Group classification loop (by id). -/
def classifyGroups (current : List Group) (incoming : List Group) :
    List Group × List MergeCollision :=
  incoming.foldl
    (fun acc inc =>
      match current.find? fun g => g.id == inc.id with
      | some ex => (acc.1, acc.2 ++ [⟨.group ex inc, .skip⟩])
      | none => (acc.1 ++ [inc], acc.2))
    ([], [])

/-- Custom item classification loop (by id). -/
def classifyCustomItems (current : List CustomItem) (incoming : List CustomItem) :
    List CustomItem × List MergeCollision :=
  incoming.foldl
    (fun acc inc =>
      match current.find? fun c => c.id == inc.id with
      | some ex => (acc.1, acc.2 ++ [⟨.customItem ex inc, .skip⟩])
      | none => (acc.1 ++ [inc], acc.2))
    ([], [])

/-- The collision-detection block of `handleFileImport`: classifies each
incoming collection against the store, collecting the collisions in
shop/player/group/custom-item order. -/
def buildMergePreview (s : ShopStore) (incoming : LedgerCollections) :
    MergePreview :=
  let sh := classifyShops s.shops incoming.shops
  let pl := classifyPlayers s.players incoming.players
  let gr := classifyGroups s.groups incoming.groups
  let ci := classifyCustomItems s.customItems incoming.customItems
  { newShops := sh.1, newPlayers := pl.1, newGroups := gr.1
    newCustomItems := ci.1
    collisions := sh.2 ++ pl.2 ++ gr.2 ++ ci.2 }

/-- Outcome of `handleFileImport` on the component state: either a merge
preview or an import-level error message; the store itself is returned
unchanged on every path (the handler never mutates it). -/
def handleFileImport (s : ShopStore) (input : Option SerLedger) :
    ShopStore × Option MergePreview × Option String :=
  match decodeLedger input with
  | .error _ => (s, none, some "Failed to parse ledger file. Please ensure it is a valid ledger JSON file.")
  | .ok dec => (s, some (buildMergePreview s dec.collections), none)

/-- `findIndex`-then-substitute step of `confirmImport`: substitute
`inc` for the first element satisfying `p`, leaving the list unchanged
when no element matches (`findIndex` returned `-1`). -/
def replaceFirst {α : Type} (l : List α) (p : α → Bool) (inc : α) : List α :=
  match l.findIdx? p with
  | some i => l.set i inc
  | none => l

/-- One iteration of the collision-resolution loop of `confirmImport`:
only a `replace` resolution does anything, substituting the incoming
record for the first element whose key equals the existing record's key
in the collection named by the collision type. -/
def applyResolution (cols : LedgerCollections) (c : MergeCollision) :
    LedgerCollections :=
  if c.resolution == .replace then
    match c.data with
    | .shop ex inc =>
      { cols with shops := replaceFirst cols.shops (fun s => s.id == ex.id) inc }
    | .player ex inc =>
      { cols with players := replaceFirst cols.players (fun p => p.ign == ex.ign) inc }
    | .group ex inc =>
      { cols with groups := replaceFirst cols.groups (fun g => g.id == ex.id) inc }
    | .customItem ex inc =>
      { cols with customItems := replaceFirst cols.customItems (fun i => i.id == ex.id) inc }
  else cols

/-- The four post-commit collections of `confirmImport`: current
collections with the new records appended, then the resolution loop. -/
def commitCollections (s : ShopStore) (mp : MergePreview) : LedgerCollections :=
  mp.collisions.foldl applyResolution
    { shops := s.shops ++ mp.newShops
      players := s.players ++ mp.newPlayers
      groups := s.groups ++ mp.newGroups
      customItems := s.customItems ++ mp.newCustomItems }

/-- `confirmImport`: installs the post-commit collections through
`loadLedgerData` (collections only — no name, no path) and then sets the
dirty flag. -/
def confirmImport (s : ShopStore) (mp : MergePreview) : ShopStore :=
  setHasUnsavedChanges true (loadLedgerData (commitCollections s mp) none none s)

/-! Shared lemmas. -/

theorem digitsAux_eq (fuel n : Nat) (h : n ≤ fuel) :
    digitsAux fuel n = Nat.digits 10 n := by
  induction fuel using Nat.strong_induction_on generalizing n with
  | _ fuel ih =>
    match fuel, n with
    | _, 0 => simp [digitsAux]
    | 0, m + 1 => omega
    | f + 1, m + 1 =>
      rw [digitsAux, Nat.digits_def' (by norm_num : 1 < 10) (Nat.succ_pos m)]
      congr 1
      exact ih f (by omega) _ (by omega)

theorem natDigits_eq_digits (n : Nat) : natDigits n = Nat.digits 10 n :=
  digitsAux_eq n n le_rfl

/-- The modelled date rendering is invertible: reviving a serialized
entity timestamp gives back the original value. -/
theorem parseDate_dateToISOString (d : Date) :
    parseDate (dateToISOString d) = d := by
  have h10 : ∀ k, k < 10 → (Char.ofNat (k + 48)).toNat - 48 = k := by decide
  show Nat.ofDigits 10
      (((natDigits d).map fun k => Char.ofNat (k + 48)).map fun c => c.toNat - 48) = d
  rw [List.map_map]
  have hmem : ∀ k ∈ natDigits d,
      ((fun c : Char => c.toNat - 48) ∘ fun k => Char.ofNat (k + 48)) k = (fun k => k) k := by
    intro k hk
    have : k < 10 := by
      rw [natDigits_eq_digits] at hk
      exact Nat.digits_lt_base (by norm_num) hk
    simpa using h10 k this
  rw [List.map_congr_left hmem, List.map_id']
  rw [natDigits_eq_digits]
  exact Nat.ofDigits_digits 10 d

theorem decodeTrade_encodeTrade (t : Trade) : decodeTrade (encodeTrade t) = t := by
  cases t
  simp [decodeTrade, encodeTrade, parseDate_dateToISOString]

theorem decodeTrades_encodeTrades (ts : List Trade) :
    ts.map (decodeTrade ∘ encodeTrade) = ts := by
  rw [show decodeTrade ∘ encodeTrade = fun t => decodeTrade (encodeTrade t) from rfl]
  rw [List.map_congr_left fun t _ => decodeTrade_encodeTrade t, List.map_id']

theorem decodeShop_encodeShop (s : Shop) : decodeShop (encodeShop s) = s := by
  cases s
  simp [decodeShop, encodeShop, parseDate_dateToISOString, decodeTrades_encodeTrades]

theorem decodeCustomItem_encodeCustomItem (c : CustomItem) :
    decodeCustomItem (encodeCustomItem c) = c := by
  cases c
  simp [decodeCustomItem, encodeCustomItem, parseDate_dateToISOString]

theorem length_replaceFirst {α : Type} (l : List α) (q : α → Bool) (inc : α) :
    (replaceFirst l q inc).length = l.length := by
  unfold replaceFirst
  cases l.findIdx? q with
  | none => rfl
  | some i => exact List.length_set l i inc

theorem applyResolution_lengths (cols : LedgerCollections) (c : MergeCollision) :
    (applyResolution cols c).shops.length = cols.shops.length
    ∧ (applyResolution cols c).players.length = cols.players.length
    ∧ (applyResolution cols c).groups.length = cols.groups.length
    ∧ (applyResolution cols c).customItems.length = cols.customItems.length := by
  unfold applyResolution
  split
  · cases c.data <;> simp [length_replaceFirst]
  · exact ⟨rfl, rfl, rfl, rfl⟩

theorem foldl_applyResolution_lengths (cs : List MergeCollision)
    (base : LedgerCollections) :
    (cs.foldl applyResolution base).shops.length = base.shops.length
    ∧ (cs.foldl applyResolution base).players.length = base.players.length
    ∧ (cs.foldl applyResolution base).groups.length = base.groups.length
    ∧ (cs.foldl applyResolution base).customItems.length = base.customItems.length := by
  induction cs generalizing base with
  | nil => exact ⟨rfl, rfl, rfl, rfl⟩
  | cons c cs ih =>
    have h1 := applyResolution_lengths base c
    have h2 := ih (applyResolution base c)
    exact ⟨h2.1.trans h1.1, h2.2.1.trans h1.2.1, h2.2.2.1.trans h1.2.2.1,
      h2.2.2.2.trans h1.2.2.2⟩

theorem applyResolution_of_not_replace (cols : LedgerCollections)
    (c : MergeCollision) (h : c.resolution ≠ Resolution.replace) :
    applyResolution cols c = cols := by
  unfold applyResolution
  have : (c.resolution == Resolution.replace) = false := by
    simpa using h
  simp [this]

theorem foldl_applyResolution_of_not_replace (cs : List MergeCollision)
    (base : LedgerCollections)
    (h : ∀ c ∈ cs, c.resolution ≠ Resolution.replace) :
    cs.foldl applyResolution base = base := by
  induction cs generalizing base with
  | nil => rfl
  | cons c cs ih =>
    rw [List.foldl_cons,
      applyResolution_of_not_replace base c (h c (List.mem_cons_self c cs))]
    exact ih base fun d hd => h d (List.mem_cons_of_mem c hd)

theorem foldl_collisions_skip {α : Type}
    (f : List α × List MergeCollision → α → List α × List MergeCollision)
    (hf : ∀ acc b c, c ∈ (f acc b).2 → c ∈ acc.2 ∨ c.resolution = Resolution.skip)
    (l : List α) (acc : List α × List MergeCollision)
    (hacc : ∀ c ∈ acc.2, c.resolution = Resolution.skip) :
    ∀ c ∈ (l.foldl f acc).2, c.resolution = Resolution.skip := by
  induction l generalizing acc with
  | nil => exact hacc
  | cons b l ih =>
    rw [List.foldl_cons]
    refine ih (f acc b) ?_
    intro c hc
    rcases hf acc b c hc with h | h
    · exact hacc c h
    · exact h

theorem classifyShops_skip (current incoming : List Shop) :
    ∀ c ∈ (classifyShops current incoming).2, c.resolution = Resolution.skip := by
  unfold classifyShops
  refine foldl_collisions_skip _ ?_ _ _ (by simp)
  intro acc b c hc
  cases h : current.find? fun s => s.id == b.id <;> rw [h] at hc
  · exact Or.inl hc
  · rcases List.mem_append.mp hc with h1 | h1
    · exact Or.inl h1
    · right
      simp only [List.mem_singleton] at h1
      rw [h1]

theorem classifyPlayers_skip (current incoming : List Player) :
    ∀ c ∈ (classifyPlayers current incoming).2, c.resolution = Resolution.skip := by
  unfold classifyPlayers
  refine foldl_collisions_skip _ ?_ _ _ (by simp)
  intro acc b c hc
  cases h : current.find? fun p => jsToLower p.ign == jsToLower b.ign <;> rw [h] at hc
  · exact Or.inl hc
  · rcases List.mem_append.mp hc with h1 | h1
    · exact Or.inl h1
    · right
      simp only [List.mem_singleton] at h1
      rw [h1]

theorem classifyGroups_skip (current incoming : List Group) :
    ∀ c ∈ (classifyGroups current incoming).2, c.resolution = Resolution.skip := by
  unfold classifyGroups
  refine foldl_collisions_skip _ ?_ _ _ (by simp)
  intro acc b c hc
  cases h : current.find? fun g => g.id == b.id <;> rw [h] at hc
  · exact Or.inl hc
  · rcases List.mem_append.mp hc with h1 | h1
    · exact Or.inl h1
    · right
      simp only [List.mem_singleton] at h1
      rw [h1]

theorem classifyCustomItems_skip (current incoming : List CustomItem) :
    ∀ c ∈ (classifyCustomItems current incoming).2, c.resolution = Resolution.skip := by
  unfold classifyCustomItems
  refine foldl_collisions_skip _ ?_ _ _ (by simp)
  intro acc b c hc
  cases h : current.find? fun i => i.id == b.id <;> rw [h] at hc
  · exact Or.inl hc
  · rcases List.mem_append.mp hc with h1 | h1
    · exact Or.inl h1
    · right
      simp only [List.mem_singleton] at h1
      rw [h1]

theorem buildMergePreview_skip (s : ShopStore) (incoming : LedgerCollections) :
    ∀ c ∈ (buildMergePreview s incoming).collisions,
      c.resolution = Resolution.skip := by
  intro c hc
  unfold buildMergePreview at hc
  simp only [List.append_assoc, List.mem_append] at hc
  rcases hc with h | h | h | h
  · exact classifyShops_skip _ _ c h
  · exact classifyPlayers_skip _ _ c h
  · exact classifyGroups_skip _ _ c h
  · exact classifyCustomItems_skip _ _ c h

theorem addPlayer_pairwise (p : Player) (s : ShopStore)
    (h : s.players.Pairwise fun a b => a.ign ≠ b.ign) :
    (addPlayer p s).players.Pairwise fun a b => a.ign ≠ b.ign := by
  unfold addPlayer
  split
  · exact h
  · next hany =>
    rw [List.pairwise_append]
    refine ⟨h, List.pairwise_singleton _ _, ?_⟩
    intro a ha b hb
    simp only [List.mem_singleton] at hb
    subst hb
    intro heq
    exact hany (List.any_eq_true.mpr ⟨a, ha, by simp [heq]⟩)

/-- A run of `addPlayer` calls, in order. -/
def addPlayerSeq (ps : List Player) (s : ShopStore) : ShopStore :=
  ps.foldl (fun st p => addPlayer p st) s

theorem addPlayerSeq_pairwise (ps : List Player) (s : ShopStore)
    (h : s.players.Pairwise fun a b => a.ign ≠ b.ign) :
    (addPlayerSeq ps s).players.Pairwise fun a b => a.ign ≠ b.ign := by
  induction ps generalizing s with
  | nil => exact h
  | cons p ps ih => exact ih (addPlayer p s) (addPlayer_pairwise p s h)

/-- A run of `addShop` calls; each pair is the id the platform random
generator produced for that call together with the shop input. -/
def addShopSeq (now : Date) (items : List (String × ShopInput)) (s : ShopStore) :
    ShopStore :=
  items.foldl (fun st it => (addShop it.1 now it.2 st).1) s

/-- A run of `addGroup` calls. -/
def addGroupSeq (items : List (String × GroupInput)) (s : ShopStore) : ShopStore :=
  items.foldl (fun st it => (addGroup it.1 it.2 st).1) s

/-- A run of `addCustomItem` calls. -/
def addCustomItemSeq (now : Date) (items : List (String × CustomItemInput))
    (s : ShopStore) : ShopStore :=
  items.foldl (fun st it => (addCustomItem it.1 now it.2 st).1) s

theorem addShopSeq_ids (now : Date) (items : List (String × ShopInput))
    (s : ShopStore) :
    (addShopSeq now items s).shops.map Shop.id
      = s.shops.map Shop.id ++ items.map Prod.fst := by
  induction items generalizing s with
  | nil => simp [addShopSeq]
  | cons it items ih =>
    show (addShopSeq now items ((addShop it.1 now it.2 s).1)).shops.map Shop.id = _
    rw [ih]
    simp [addShop]

theorem addGroupSeq_ids (items : List (String × GroupInput)) (s : ShopStore) :
    (addGroupSeq items s).groups.map Group.id
      = s.groups.map Group.id ++ items.map Prod.fst := by
  induction items generalizing s with
  | nil => simp [addGroupSeq]
  | cons it items ih =>
    show (addGroupSeq items ((addGroup it.1 it.2 s).1)).groups.map Group.id = _
    rw [ih]
    simp [addGroup]

theorem addCustomItemSeq_ids (now : Date)
    (items : List (String × CustomItemInput)) (s : ShopStore) :
    (addCustomItemSeq now items s).customItems.map CustomItem.id
      = s.customItems.map CustomItem.id
        ++ items.map fun it => "custom_" ++ it.1 := by
  induction items generalizing s with
  | nil => simp [addCustomItemSeq]
  | cons it items ih =>
    show (addCustomItemSeq now items
      ((addCustomItem it.1 now it.2 s).1)).customItems.map CustomItem.id = _
    rw [ih]
    simp [addCustomItem]

theorem updateShop_shops_unknown (id : String) (p : ShopPatch) (now : Date)
    (s : ShopStore) (h : ∀ sh ∈ s.shops, sh.id ≠ id) :
    (updateShop id p now s).shops = s.shops := by
  unfold updateShop
  show s.shops.map _ = s.shops
  have hcongr : ∀ sh ∈ s.shops,
      (if sh.id == id then sh.applyPatch p now else sh) = (fun x => x) sh := by
    intro sh hsh
    have : (sh.id == id) = false := by simpa using h sh hsh
    simp [this]
  rw [List.map_congr_left hcongr, List.map_id']

theorem deleteShop_shops_unknown (id : String) (s : ShopStore)
    (h : ∀ sh ∈ s.shops, sh.id ≠ id) :
    (deleteShop id s).shops = s.shops := by
  unfold deleteShop
  show s.shops.filter _ = s.shops
  refine List.filter_eq_self.mpr ?_
  intro sh hsh
  simpa using h sh hsh

/-! Concrete fixtures used by witnesses and counterexamples. -/

/-- A store with no data and no unsaved changes. -/
def emptyStore : ShopStore :=
  { shops := [], players := [], groups := [], customItems := []
    selectedShopId := none, ledgerName := "Commonwealth Ledger"
    ledgerPath := none, hasUnsavedChanges := false }

/-- The current player of the spec merge example. -/
def pSteve : Player := { ign := "Steve", uuid := none, notes := none }

/-- The incoming colliding player (same ign up to case). -/
def pSteveLower : Player := { ign := "steve", uuid := none, notes := none }

/-- The incoming genuinely new player. -/
def pAlex : Player := { ign := "Alex", uuid := none, notes := none }

/-- Store holding exactly the player Steve. -/
def storeSteve : ShopStore := { emptyStore with players := [pSteve] }

/-- Incoming collections of the merge example: players steve and Alex. -/
def incomingC : LedgerCollections :=
  { shops := [], players := [pSteveLower, pAlex], groups := [], customItems := [] }

/-- A concrete shop. -/
def sampleShop : Shop :=
  { id := "s1", name := "Ore Exchange", description := none
    owner := { type := OwnerType.individual, player := some pSteve }
    location := { x := 0, y := 0, z := 0 }
    trades := [], tags := none, createdAt := 0, updatedAt := 0, isActive := true }

/-- A concrete shop input for `addShop`. -/
def sampleShopInput : ShopInput :=
  { name := "Ore Exchange", description := none
    owner := { type := OwnerType.individual, player := some pSteve }
    location := { x := 0, y := 0, z := 0 }
    trades := [], tags := none, isActive := true }

/-- Store holding exactly `sampleShop`, clean. -/
def storeOneShop : ShopStore := { emptyStore with shops := [sampleShop] }

/-- The payload of the decode example: only a `name` field, no `version`,
no `data`. -/
def onlyNameRaw : SerLedger := { name := some "X" }

/-- A payload whose `version` field is present but the empty string and
whose `data` object is present. -/
def emptyVersionRaw : SerLedger := { version := some "", data := some {} }

/-- A payload with a truthy version and a `data` object that omits every
collection. -/
def allAbsentRaw : SerLedger := { version := some "1.0", data := some {} }

/-! Claim theorems. -/

/-- C1: Merge conservation — every post-commit collection of
`confirmImport` has size `|current| + |new records|`; a non-`replace`
resolution changes nothing; a `replace` resolution substitutes the
incoming record in place at the first index whose key matches
(`List.set`, order-preserving, size-preserving) and is a no-op when no
key matches. -/
theorem merge_conservation :
    (∀ (s : ShopStore) (mp : MergePreview),
      (confirmImport s mp).shops.length = s.shops.length + mp.newShops.length
      ∧ (confirmImport s mp).players.length = s.players.length + mp.newPlayers.length
      ∧ (confirmImport s mp).groups.length = s.groups.length + mp.newGroups.length
      ∧ (confirmImport s mp).customItems.length
          = s.customItems.length + mp.newCustomItems.length)
    ∧ (∀ (cols : LedgerCollections) (c : MergeCollision),
        c.resolution ≠ Resolution.replace → applyResolution cols c = cols)
    ∧ (∀ (α : Type) (l : List α) (q : α → Bool) (inc : α),
        (replaceFirst l q inc).length = l.length
        ∧ (∀ i, l.findIdx? q = some i → replaceFirst l q inc = l.set i inc)
        ∧ (l.findIdx? q = none → replaceFirst l q inc = l)) := by
  refine ⟨?_, applyResolution_of_not_replace, ?_⟩
  · intro s mp
    have h := foldl_applyResolution_lengths mp.collisions
      { shops := s.shops ++ mp.newShops
        players := s.players ++ mp.newPlayers
        groups := s.groups ++ mp.newGroups
        customItems := s.customItems ++ mp.newCustomItems }
    exact ⟨h.1.trans (List.length_append _ _),
      h.2.1.trans (List.length_append _ _),
      h.2.2.1.trans (List.length_append _ _),
      h.2.2.2.trans (List.length_append _ _)⟩
  · intro α l q inc
    refine ⟨length_replaceFirst l q inc, ?_, ?_⟩
    · intro i hi
      unfold replaceFirst
      rw [hi]
    · intro h0
      unfold replaceFirst
      rw [h0]

/-- Witness for C1 at the merge example of the spec. -/
theorem merge_conservation_witness :
    (confirmImport storeSteve (buildMergePreview storeSteve incomingC)).players.length
        = storeSteve.players.length
          + (buildMergePreview storeSteve incomingC).newPlayers.length
    ∧ applyResolution incomingC
        ⟨CollisionData.player pSteve pSteveLower, Resolution.skip⟩ = incomingC :=
  ⟨(merge_conservation.1 storeSteve (buildMergePreview storeSteve incomingC)).2.1,
    merge_conservation.2.1 incomingC
      ⟨CollisionData.player pSteve pSteveLower, Resolution.skip⟩ (by decide)⟩

/-- C2: Merge default bias — every collision built by `handleFileImport`
carries the default resolution `skip`, and committing a preview in which
no collision is `replace` yields exactly the current collections with
the new records appended (no pre-existing record altered or dropped). -/
theorem merge_default_bias (s : ShopStore) (incoming : LedgerCollections) :
    (∀ c ∈ (buildMergePreview s incoming).collisions,
      c.resolution = Resolution.skip)
    ∧ ∀ mp : MergePreview,
        (∀ c ∈ mp.collisions, c.resolution ≠ Resolution.replace) →
        (confirmImport s mp).shops = s.shops ++ mp.newShops
        ∧ (confirmImport s mp).players = s.players ++ mp.newPlayers
        ∧ (confirmImport s mp).groups = s.groups ++ mp.newGroups
        ∧ (confirmImport s mp).customItems = s.customItems ++ mp.newCustomItems := by
  refine ⟨buildMergePreview_skip s incoming, ?_⟩
  intro mp h
  have hb := foldl_applyResolution_of_not_replace mp.collisions
    { shops := s.shops ++ mp.newShops
      players := s.players ++ mp.newPlayers
      groups := s.groups ++ mp.newGroups
      customItems := s.customItems ++ mp.newCustomItems } h
  exact ⟨congrArg LedgerCollections.shops hb,
    congrArg LedgerCollections.players hb,
    congrArg LedgerCollections.groups hb,
    congrArg LedgerCollections.customItems hb⟩

/-- Witness for C2 at the spec example: current players Steve, incoming
steve and Alex — one case-insensitive collision, one new record, default
commit gives two players, not three. -/
theorem merge_default_bias_witness :
    (buildMergePreview storeSteve incomingC).collisions
        = [⟨CollisionData.player pSteve pSteveLower, Resolution.skip⟩]
    ∧ (buildMergePreview storeSteve incomingC).newPlayers = [pAlex]
    ∧ (confirmImport storeSteve (buildMergePreview storeSteve incomingC)).players
        = [pSteve, pAlex]
    ∧ (confirmImport storeSteve (buildMergePreview storeSteve incomingC)).players.length
        = 2 :=
  ⟨by decide, by decide,
    (((merge_default_bias storeSteve incomingC).2
      (buildMergePreview storeSteve incomingC) (by decide)).2.1).trans (by decide),
    by decide⟩

/-- C3: Codec round trip — decoding an encoded ledger reproduces every
entity field of all four collections exactly (entity dates included);
the envelope stamps both its timestamps to the encode-time clock. -/
theorem codec_roundtrip (now : Date) (name : String) (c : LedgerCollections) :
    decodeLedger (some (generateLedgerData now name c))
      = Except.ok { name := if name.isEmpty then "Imported Ledger" else name
                    collections := c }
    ∧ (generateLedgerData now name c).createdAt = some (dateToISOString now)
    ∧ (generateLedgerData now name c).updatedAt = some (dateToISOString now) := by
  refine ⟨?_, rfl, rfl⟩
  have hshops : (c.shops.map encodeShop).map decodeShop = c.shops := by
    rw [List.map_map,
      show decodeShop ∘ encodeShop = fun s => decodeShop (encodeShop s) from rfl,
      List.map_congr_left fun s _ => decodeShop_encodeShop s, List.map_id']
  have hitems :
      (c.customItems.map encodeCustomItem).map decodeCustomItem = c.customItems := by
    rw [List.map_map,
      show decodeCustomItem ∘ encodeCustomItem
        = fun i => decodeCustomItem (encodeCustomItem i) from rfl,
      List.map_congr_left fun i _ => decodeCustomItem_encodeCustomItem i,
      List.map_id']
  cases h : name.isEmpty <;>
    simp [decodeLedger, generateLedgerData, strTruthy, h, hshops, hitems,
      show ("1.0" : String).isEmpty = false from by decide]

/-- C4 counterexample: a payload whose `version` field is present (the
empty string) and whose `data` field is present still fails to decode,
so decode failure is not equivalent to `version`/`data` being missing. -/
theorem decode_fails_with_fields_present :
    (decodeLedger (some emptyVersionRaw)).isOk = false
    ∧ emptyVersionRaw.version.isSome = true
    ∧ emptyVersionRaw.data.isSome = true := by
  decide

/-- C4 amended: decoding fails exactly when `version` is JS-falsy
(missing, null, or the empty string) or `data` is missing/null; absent
optional collections under `data` never fail and default to empty lists,
and the `name`-only payload of the spec example fails. -/
theorem decode_raises_iff_amended (raw : SerLedger) :
    ((decodeLedger (some raw)).isOk = true
      ↔ strTruthy raw.version = true ∧ raw.data.isSome = true)
    ∧ decodeLedger (some allAbsentRaw)
        = Except.ok { name := "Imported Ledger"
                      collections :=
                        { shops := [], players := [], groups := []
                          customItems := [] } }
    ∧ (decodeLedger (some onlyNameRaw)).isOk = false := by
  refine ⟨?_, rfl, by decide⟩
  unfold decodeLedger
  cases hd : raw.data <;> cases hv : strTruthy raw.version <;>
    simp [hd, hv, Except.isOk, Except.toBool]

/-- Witness for C4: a truthy version plus a present `data` object with
every collection absent decodes successfully. -/
theorem decode_raises_iff_witness :
    (decodeLedger (some allAbsentRaw)).isOk = true :=
  (decode_raises_iff_amended allAbsentRaw).1.mpr (by decide)

/-- C5: Import atomicity — whenever decode fails, `handleFileImport`
returns the store completely unchanged, produces no merge preview (hence
no partial collision list), and surfaces only the import-level error. -/
theorem import_atomicity (s : ShopStore) (input : Option SerLedger)
    (h : (decodeLedger input).isOk = false) :
    handleFileImport s input
      = (s, none,
          some "Failed to parse ledger file. Please ensure it is a valid ledger JSON file.") := by
  unfold handleFileImport
  cases hd : decodeLedger input with
  | error e => rfl
  | ok dec =>
    rw [hd] at h
    simp [Except.isOk, Except.toBool] at h

/-- Witness for C5 at the spec decode example (a `name`-only payload). -/
theorem import_atomicity_witness :
    handleFileImport storeOneShop (some onlyNameRaw)
      = (storeOneShop, none,
          some "Failed to parse ledger file. Please ensure it is a valid ledger JSON file.") :=
  import_atomicity storeOneShop (some onlyNameRaw) (by decide)

/-- C6 counterexample: `importShops` is a mutating operation, yet on a
clean store it leaves `hasUnsavedChanges` false. -/
theorem importShops_leaves_clean :
    ¬ ((importShops [sampleShop] emptyStore).hasUnsavedChanges = true) := by
  decide

/-- C6 amended: every mutating store operation except `importShops` sets
the dirty flag (an `addPlayer` rejected as an exact duplicate is a
complete no-op and keeps the flag); `importShops` leaves the flag
unchanged; `setHasUnsavedChanges` (the save path), `clearAllData` and
`loadLedgerData` can clear it, and a merge commit re-sets it. -/
theorem dirty_flag_rule (s : ShopStore) (genId id tid ign : String) (now : Date)
    (shopData : ShopInput) (tradeData : TradeInput) (groupData : GroupInput)
    (itemData : CustomItemInput) (player : Player) (sp : ShopPatch)
    (tp : TradePatch) (pp : PlayerPatch) (gp : GroupPatch)
    (cp : CustomItemPatch) (l : List Shop) (d : LedgerCollections)
    (nm : Option String) (pth : Option (Option String)) (b : Bool)
    (mp : MergePreview) :
    (addShop genId now shopData s).1.hasUnsavedChanges = true
    ∧ (updateShop id sp now s).hasUnsavedChanges = true
    ∧ (deleteShop id s).hasUnsavedChanges = true
    ∧ (addTrade genId now id tradeData s).hasUnsavedChanges = true
    ∧ (updateTrade id tid tp now s).hasUnsavedChanges = true
    ∧ (deleteTrade id tid now s).hasUnsavedChanges = true
    ∧ (addPlayer player s).hasUnsavedChanges
        = (if s.players.any fun p => p.ign == player.ign then s.hasUnsavedChanges
           else true)
    ∧ (updatePlayer ign pp s).hasUnsavedChanges = true
    ∧ (deletePlayer ign s).hasUnsavedChanges = true
    ∧ (addGroup genId groupData s).1.hasUnsavedChanges = true
    ∧ (updateGroup id gp s).hasUnsavedChanges = true
    ∧ (deleteGroup id s).hasUnsavedChanges = true
    ∧ (addCustomItem genId now itemData s).1.hasUnsavedChanges = true
    ∧ (updateCustomItem id cp s).hasUnsavedChanges = true
    ∧ (deleteCustomItem id s).hasUnsavedChanges = true
    ∧ (importShops l s).hasUnsavedChanges = s.hasUnsavedChanges
    ∧ (clearAllData s).hasUnsavedChanges = false
    ∧ (loadLedgerData d nm pth s).hasUnsavedChanges = false
    ∧ (setHasUnsavedChanges b s).hasUnsavedChanges = b
    ∧ (confirmImport s mp).hasUnsavedChanges = true := by
  refine ⟨rfl, rfl, rfl, rfl, rfl, rfl, ?_, rfl, rfl, rfl, rfl, rfl, rfl, rfl,
    rfl, rfl, rfl, rfl, rfl, rfl⟩
  unfold addPlayer
  split <;> simp [*]

/-- Witness for C6 at a concrete clean store. -/
theorem dirty_flag_rule_witness :
    (addPlayer pAlex storeSteve).hasUnsavedChanges
        = (if storeSteve.players.any fun p => p.ign == pAlex.ign then
             storeSteve.hasUnsavedChanges
           else true)
    ∧ (importShops [sampleShop] storeSteve).hasUnsavedChanges
        = storeSteve.hasUnsavedChanges :=
  ⟨(dirty_flag_rule storeSteve "g" "i" "t" "n" 0 sampleShopInput
      ⟨⟨"x", ⟨1, .item⟩, none, none⟩, ⟨"y", ⟨1, .item⟩, none, none⟩, none, true⟩
      ⟨"G", [], none, none⟩ ⟨"I", "x", none⟩ pAlex {} {} {} {} {} [] ⟨[], [], [], []⟩
      none none true ⟨[], [], [], [], []⟩).2.2.2.2.2.2.1,
    (dirty_flag_rule storeSteve "g" "i" "t" "n" 0 sampleShopInput
      ⟨⟨"x", ⟨1, .item⟩, none, none⟩, ⟨"y", ⟨1, .item⟩, none, none⟩, none, true⟩
      ⟨"G", [], none, none⟩ ⟨"I", "x", none⟩ pAlex {} {} {} {} {} [sampleShop]
      ⟨[], [], [], []⟩ none none true
      ⟨[], [], [], [], []⟩).2.2.2.2.2.2.2.2.2.2.2.2.2.2.2.1⟩

/-- C7 counterexample: on a clean store holding one shop, `updateShop`
with an unknown id changes the store — it still sets the dirty flag —
so the operation is not a complete no-op on the store. -/
theorem update_unknown_not_noop :
    (∀ sh ∈ storeOneShop.shops, sh.id ≠ "nonexistent")
    ∧ updateShop "nonexistent" {} 5 storeOneShop ≠ storeOneShop := by
  decide

/-- C7 amended: `updateShop` with an unknown id throws no error and
leaves every collection (and the shop list in particular) unchanged, but
still sets `hasUnsavedChanges`; `deleteShop` with an unknown id likewise
leaves the shop collection unchanged. -/
theorem unknown_id_silent (id : String) (p : ShopPatch) (now : Date)
    (s : ShopStore) (h : ∀ sh ∈ s.shops, sh.id ≠ id) :
    (updateShop id p now s).shops = s.shops
    ∧ (updateShop id p now s).players = s.players
    ∧ (updateShop id p now s).groups = s.groups
    ∧ (updateShop id p now s).customItems = s.customItems
    ∧ (updateShop id p now s).hasUnsavedChanges = true
    ∧ (deleteShop id s).shops = s.shops :=
  ⟨updateShop_shops_unknown id p now s h, rfl, rfl, rfl, rfl,
    deleteShop_shops_unknown id s h⟩

/-- Witness for C7 at the one-shop store and an id it does not hold. -/
theorem unknown_id_silent_witness :
    (updateShop "nonexistent" {} 5 storeOneShop).shops = storeOneShop.shops
    ∧ (deleteShop "nonexistent" storeOneShop).shops = storeOneShop.shops :=
  ⟨(unknown_id_silent "nonexistent" {} 5 storeOneShop (by decide)).1,
    (unknown_id_silent "nonexistent" {} 5 storeOneShop (by decide)).2.2.2.2.2⟩

/-- C8 counterexample: `addPlayer` dedupes case-sensitively, so adding
steve after Steve is accepted and the collection then holds two players
whose igns agree after case-folding. -/
theorem addPlayer_case_collision :
    (addPlayer pSteveLower (addPlayer pSteve emptyStore)).players
        = [pSteve, pSteveLower]
    ∧ jsToLower pSteve.ign = jsToLower pSteveLower.ign
    ∧ pSteve.ign ≠ pSteveLower.ign := by
  decide

/-- C8 amended: the store-level `addPlayer` rejects only an exactly
(case-sensitively) matching ign as a duplicate and is then a complete
no-op, so any sequence of `addPlayer` calls preserves pairwise
distinctness of the igns under exact comparison; case-insensitive
uniqueness is left to the callers. -/
theorem addPlayer_uniqueness_amended (ps : List Player) (s : ShopStore)
    (h : s.players.Pairwise fun a b => a.ign ≠ b.ign) :
    ((addPlayerSeq ps s).players.Pairwise fun a b => a.ign ≠ b.ign)
    ∧ ∀ p : Player,
        (s.players.any fun q => q.ign == p.ign) = true → addPlayer p s = s := by
  refine ⟨addPlayerSeq_pairwise ps s h, ?_⟩
  intro p hp
  unfold addPlayer
  rw [if_pos hp]

/-- Witness for C8: a run of adds starting from the Steve store keeps
exact igns pairwise distinct. -/
theorem addPlayer_uniqueness_witness :
    (addPlayerSeq [pSteveLower, pAlex] storeSteve).players.Pairwise
      fun a b => a.ign ≠ b.ign :=
  (addPlayer_uniqueness_amended [pSteveLower, pAlex] storeSteve (by decide)).1

/-- C9 counterexample: the id generator is random and unchecked — if it
returns the same string twice, two shops end up with the same id, so
freshly generated ids can collide with ids already present. -/
theorem duplicate_generated_ids :
    ¬ (((addShopSeq 0 [("a", sampleShopInput), ("a", sampleShopInput)]
          emptyStore).shops.map Shop.id).Nodup) := by
  decide

/-- C9 amended: `addShop`/`addGroup`/`addCustomItem` append the drawn id
verbatim (`addCustomItem` with the `custom_` namespace marker) with no
check against existing ids; ids are pairwise distinct whenever the
generator draws, combined with the ids already present, are pairwise
distinct. -/
theorem generated_ids_distinct (now : Date) (s : ShopStore)
    (shopItems : List (String × ShopInput))
    (groupItems : List (String × GroupInput))
    (itemItems : List (String × CustomItemInput)) :
    ((s.shops.map Shop.id ++ shopItems.map Prod.fst).Nodup →
      ((addShopSeq now shopItems s).shops.map Shop.id).Nodup)
    ∧ ((s.groups.map Group.id ++ groupItems.map Prod.fst).Nodup →
      ((addGroupSeq groupItems s).groups.map Group.id).Nodup)
    ∧ ((s.customItems.map CustomItem.id
          ++ itemItems.map fun it => "custom_" ++ it.1).Nodup →
      ((addCustomItemSeq now itemItems s).customItems.map CustomItem.id).Nodup) := by
  refine ⟨?_, ?_, ?_⟩
  · intro h
    rw [addShopSeq_ids now shopItems s]
    exact h
  · intro h
    rw [addGroupSeq_ids groupItems s]
    exact h
  · intro h
    rw [addCustomItemSeq_ids now itemItems s]
    exact h

/-- Witness for C9 with two distinct generator draws. -/
theorem generated_ids_distinct_witness :
    ((addShopSeq 0 [("a", sampleShopInput), ("b", sampleShopInput)]
        emptyStore).shops.map Shop.id).Nodup :=
  (generated_ids_distinct 0 emptyStore
    [("a", sampleShopInput), ("b", sampleShopInput)] [] []).1 (by decide)

/-- C10: `loadLedgerData` called with no name and no path replaces the
four collections, clears the selection and the dirty flag, and leaves
`ledgerName`/`ledgerPath` exactly as they were; in particular a merge
commit preserves the open ledger name and path. -/
theorem load_ledger_frame (d : LedgerCollections) (s : ShopStore) :
    loadLedgerData d none none s
      = { shops := d.shops, players := d.players, groups := d.groups
          customItems := d.customItems, selectedShopId := none
          ledgerName := s.ledgerName, ledgerPath := s.ledgerPath
          hasUnsavedChanges := false }
    ∧ ∀ mp : MergePreview,
        (confirmImport s mp).ledgerName = s.ledgerName
        ∧ (confirmImport s mp).ledgerPath = s.ledgerPath :=
  ⟨rfl, fun _ => ⟨rfl, rfl⟩⟩

end Ironbank
